import Mathlib

/-!
Shallow embedding of the offline-first synchronization subsystem of the
Defect-mapping repository: the durable operation queue, the per-entity replay
handlers, and the drain loop of `useOfflineSync.ts`, over the Dexie tables
declared in the database module.

The remote collaborator (the `api` object) is modelled as an oracle
`ApiCall → ApiResult`; a thrown exception is `ApiResult.exn`, a normal
response is `ApiResult.ok success data`, where `data` carries the
server-assigned identifier of the created entity when present (the source
reads `(response.data as any).id`).

Each drain step is instrumented with the list of remote calls it performs,
tagged with the queue id and timestamp of the operation being replayed; the
source performs these calls as side effects, so the trace is the natural
observable of the embedding.
-/

/-- Operation kind of a queued mutation (`SyncOperation['type']`). -/
inductive OpType where
  | CREATE
  | UPDATE
  | DELETE
deriving DecidableEq, Repr

/-- Entity kind of a queued mutation (`SyncOperation['entityType']`). -/
inductive EntityType where
  | session
  | item
  | defect
deriving DecidableEq, Repr

/-- Per-entity sync status (`SyncableEntity.syncStatus`). -/
inductive SyncStatus where
  | synced
  | pending
  | error
deriving DecidableEq, Repr

/-- A queued mutation, one row of the `syncQueue` Dexie table.  `id` is the
auto-incremented primary key; `data` is the replay payload, modelled as an
association list because the handlers only read string fields from it. -/
structure SyncOperation where
  id : Nat
  type : OpType
  entityType : EntityType
  localId : String
  serverId : Option String
  data : List (String × String)
  timestamp : Nat
  attempts : Nat
  lastError : Option String
deriving DecidableEq, Repr

/-- A local entity row as the sync engine sees it: the server-assigned `id`
field (absent until the CREATE resolves) and the sync status.  The remaining
domain fields are never read or written by the sync engine. -/
structure Entity where
  id : Option String
  syncStatus : SyncStatus
deriving DecidableEq, Repr

/-- A Dexie table keyed by `localId`. -/
abbrev Table := List (String × Entity)

/-- Point lookup (`db.<table>.get(key)`). -/
def getEntity (t : Table) (k : String) : Option Entity :=
  (t.find? (fun p => decide (p.1 = k))).map (fun p => p.2)

/-- Dexie `update(key, changes)`: apply the changes to the row at `key`,
no-op when the key is absent. -/
def updateEntity (t : Table) (k : String) (f : Entity → Entity) : Table :=
  t.map (fun p => if p.1 = k then (p.1, f p.2) else p)

/-- The three entity tables of the local database. -/
structure Stores where
  sessions : Table
  items : Table
  defects : Table
deriving DecidableEq, Repr

/-- Table selected by an operation's entity kind. -/
def entityTable (st : Stores) : EntityType → Table
  | EntityType.session => st.sessions
  | EntityType.item => st.items
  | EntityType.defect => st.defects

/-- The whole local database: entity tables plus the `syncQueue` table. -/
structure DB where
  stores : Stores
  syncQueue : List SyncOperation
deriving DecidableEq, Repr

/-- HTTP method of a remote call. -/
inductive ApiMethod where
  | post
  | patch
  | del
deriving DecidableEq, Repr

/-- One remote call made by a replay handler. -/
structure ApiCall where
  method : ApiMethod
  path : String
deriving DecidableEq, Repr

/-- Outcome of a remote call: a normal response with its `success` flag and
optional data (carrying the server id), or a thrown exception. -/
inductive ApiResult where
  | ok (success : Bool) (data : Option String)
  | exn (msg : String)
deriving DecidableEq, Repr

/-- The remote collaborator. -/
abbrev Remote := ApiCall → ApiResult

/-- Result of one replay handler: the updated entity tables, the remote calls
performed, and the exception that escaped, if any. -/
structure OpResult where
  stores : Stores
  calls : List ApiCall
  threw : Option String
deriving Repr

/-- String field lookup in an operation payload (`op.data.foo as string`);
an absent field reads as the string an undefined value interpolates to. -/
def payloadField (data : List (String × String)) (k : String) : String :=
  match data.find? (fun p => decide (p.1 = k)) with
  | some p => p.2
  | none => "undefined"

/-- `processSessionOperation`: replay one queued session mutation. -/
def processSessionOperation (remote : Remote) (st : Stores)
    (op : SyncOperation) : OpResult :=
  match op.type with
  | OpType.CREATE =>
    let call : ApiCall := { method := ApiMethod.post, path := "/sessions" }
    match remote call with
    | ApiResult.exn m => { stores := st, calls := [call], threw := some m }
    | ApiResult.ok success data =>
      if success && data.isSome then
        match getEntity st.sessions op.localId with
        | some _ =>
          let t := updateEntity st.sessions op.localId
            (fun e => { e with id := data, syncStatus := SyncStatus.synced })
          { stores := { st with sessions := t }, calls := [call], threw := none }
        | none => { stores := st, calls := [call], threw := none }
      else { stores := st, calls := [call], threw := none }
  | OpType.UPDATE =>
    match op.serverId with
    | some sid =>
      let call : ApiCall := { method := ApiMethod.patch, path := "/sessions/" ++ sid }
      match remote call with
      | ApiResult.exn m => { stores := st, calls := [call], threw := some m }
      | ApiResult.ok _ _ => { stores := st, calls := [call], threw := none }
    | none => { stores := st, calls := [], threw := none }
  | OpType.DELETE =>
    match op.serverId with
    | some sid =>
      let call : ApiCall := { method := ApiMethod.del, path := "/sessions/" ++ sid }
      match remote call with
      | ApiResult.exn m => { stores := st, calls := [call], threw := some m }
      | ApiResult.ok _ _ => { stores := st, calls := [call], threw := none }
    | none => { stores := st, calls := [], threw := none }

/-- `processItemOperation`: replay one queued item mutation.  The source
switch has no DELETE case, so a DELETE falls through with no effect. -/
def processItemOperation (remote : Remote) (st : Stores)
    (op : SyncOperation) : OpResult :=
  match op.type with
  | OpType.CREATE =>
    let sessionId := payloadField op.data "sessionId"
    let call : ApiCall :=
      { method := ApiMethod.post, path := "/sessions/" ++ sessionId ++ "/items" }
    match remote call with
    | ApiResult.exn m => { stores := st, calls := [call], threw := some m }
    | ApiResult.ok success data =>
      if success && data.isSome then
        match getEntity st.items op.localId with
        | some _ =>
          let t := updateEntity st.items op.localId
            (fun e => { e with id := data, syncStatus := SyncStatus.synced })
          { stores := { st with items := t }, calls := [call], threw := none }
        | none => { stores := st, calls := [call], threw := none }
      else { stores := st, calls := [call], threw := none }
  | OpType.UPDATE =>
    match op.serverId with
    | some sid =>
      let call : ApiCall :=
        { method := ApiMethod.patch, path := "/sessions/items/" ++ sid }
      match remote call with
      | ApiResult.exn m => { stores := st, calls := [call], threw := some m }
      | ApiResult.ok _ _ => { stores := st, calls := [call], threw := none }
    | none => { stores := st, calls := [], threw := none }
  | OpType.DELETE => { stores := st, calls := [], threw := none }

/-- `processDefectOperation`: replay one queued defect mutation.  The source
switch has no UPDATE case, so an UPDATE falls through with no effect. -/
def processDefectOperation (remote : Remote) (st : Stores)
    (op : SyncOperation) : OpResult :=
  match op.type with
  | OpType.CREATE =>
    let itemId := payloadField op.data "itemId"
    let call : ApiCall :=
      { method := ApiMethod.post, path := "/sessions/items/" ++ itemId ++ "/defects" }
    match remote call with
    | ApiResult.exn m => { stores := st, calls := [call], threw := some m }
    | ApiResult.ok success data =>
      if success && data.isSome then
        match getEntity st.defects op.localId with
        | some _ =>
          let t := updateEntity st.defects op.localId
            (fun e => { e with id := data, syncStatus := SyncStatus.synced })
          { stores := { st with defects := t }, calls := [call], threw := none }
        | none => { stores := st, calls := [call], threw := none }
      else { stores := st, calls := [call], threw := none }
  | OpType.UPDATE => { stores := st, calls := [], threw := none }
  | OpType.DELETE =>
    match op.serverId with
    | some sid =>
      let call : ApiCall :=
        { method := ApiMethod.del, path := "/sessions/defects/" ++ sid }
      match remote call with
      | ApiResult.exn m => { stores := st, calls := [call], threw := some m }
      | ApiResult.ok _ _ => { stores := st, calls := [call], threw := none }
    | none => { stores := st, calls := [], threw := none }

/-- `processOperation`: dispatch to the handler for the operation's entity
kind. -/
def processOperation (remote : Remote) (st : Stores)
    (op : SyncOperation) : OpResult :=
  match op.entityType with
  | EntityType.session => processSessionOperation remote st op
  | EntityType.item => processItemOperation remote st op
  | EntityType.defect => processDefectOperation remote st op

/-- A remote call as it appears in the drain trace, tagged with the queue id
and timestamp of the operation being replayed. -/
structure RCall where
  opId : Nat
  ts : Nat
  call : ApiCall
deriving DecidableEq, Repr

/-- One iteration of the drain loop body: try the operation; on normal
return delete it from the queue; on a thrown error write back
`attempts := op.attempts + 1` and the error string, then delete the row
when the snapshot's attempt count had already reached 5. -/
def drainStep (remote : Remote) (db : DB) (op : SyncOperation) :
    DB × List RCall :=
  let r := processOperation remote db.stores op
  let traced := r.calls.map (fun c => { opId := op.id, ts := op.timestamp, call := c })
  match r.threw with
  | none =>
    ({ stores := r.stores,
       syncQueue := db.syncQueue.filter (fun q => q.id ≠ op.id) }, traced)
  | some m =>
    let q1 := db.syncQueue.map (fun q =>
      if q.id = op.id then
        { q with attempts := op.attempts + 1, lastError := some m }
      else q)
    if 5 ≤ op.attempts then
      ({ stores := r.stores,
         syncQueue := q1.filter (fun q => q.id ≠ op.id) }, traced)
    else
      ({ stores := r.stores, syncQueue := q1 }, traced)

/-- The `for (const op of operations)` loop over the snapshot. -/
def drainOps (remote : Remote) (db : DB) :
    List SyncOperation → DB × List RCall
  | [] => (db, [])
  | op :: rest =>
    let s1 := drainStep remote db op
    let s2 := drainOps remote s1.1 rest
    (s2.1, s1.2 ++ s2.2)

/-- Ordering used by `db.syncQueue.orderBy('timestamp')`: ascending
timestamp, ties broken by ascending primary key as the index iterates. -/
def opLE (a b : SyncOperation) : Prop :=
  a.timestamp < b.timestamp ∨ (a.timestamp = b.timestamp ∧ a.id ≤ b.id)

instance : DecidableRel opLE := fun a b => by
  unfold opLE
  infer_instance

instance : IsTotal SyncOperation opLE where
  total a b := by
    unfold opLE
    omega

instance : IsTrans SyncOperation opLE where
  trans a b c hab hbc := by
    unfold opLE at *
    omega

/-- In-memory state of the `useOfflineSync` hook: the database, the
re-entrancy flag and the pending-count observable. -/
structure SyncState where
  db : DB
  isSyncing : Bool
  pendingCount : Nat
deriving DecidableEq, Repr

/-- `processQueue`: guard on the re-entrancy flag, snapshot the queue in
timestamp order, drain it sequentially, then clear the flag and re-read the
pending count. -/
def processQueue (remote : Remote) (s : SyncState) : SyncState × List RCall :=
  if s.isSyncing then (s, [])
  else
    let ops := s.db.syncQueue.insertionSort opLE
    let d := drainOps remote s.db ops
    ({ db := d.1, isSyncing := false, pendingCount := d.1.syncQueue.length }, d.2)

/-- Fresh primary key for the auto-incrementing `syncQueue` table. -/
def nextQueueId (db : DB) : Nat :=
  db.syncQueue.foldr (fun q m => max q.id m) 0 + 1

/-- `addToQueue`: append an operation with attempt count 0 and the current
time as timestamp, capturing the (possibly absent) server id passed by the
caller, and bump the pending count.  The debounced immediate drain it
schedules is a trigger only and is modelled by a later `processQueue` call. -/
def addToQueue (now : Nat) (type : OpType) (entityType : EntityType)
    (localId : String) (data : List (String × String))
    (serverId : Option String) (s : SyncState) : SyncState :=
  { s with
    db := { s.db with
      syncQueue := s.db.syncQueue ++
        [{ id := nextQueueId s.db, type := type, entityType := entityType,
           localId := localId, serverId := serverId, data := data,
           timestamp := now, attempts := 0, lastError := none }] },
    pendingCount := s.pendingCount + 1 }

/-- Iterated drain cycles (successive external triggers of `processQueue`). -/
def drainN (remote : Remote) : Nat → SyncState → SyncState
  | 0, s => s
  | n + 1, s => drainN remote n (processQueue remote s).1

/-- A remote collaborator on which every call returns a successful response
carrying a server identifier. -/
def AlwaysSucceeds (remote : Remote) : Prop :=
  ∀ c, ∃ sid, remote c = ApiResult.ok true (some sid)

/-- The entity at key `k` of kind `et` carries a server id and is synced. -/
def SyncedAt (st : Stores) (et : EntityType) (k : String) : Prop :=
  ∃ sid, getEntity (entityTable st et) k =
    some { id := some sid, syncStatus := SyncStatus.synced }

/-- The creation endpoint the CREATE handler posts to, by entity kind
(the literal paths of the three handlers). -/
def createCall (op : SyncOperation) : ApiCall :=
  match op.entityType with
  | EntityType.session => { method := ApiMethod.post, path := "/sessions" }
  | EntityType.item =>
    { method := ApiMethod.post,
      path := "/sessions/" ++ payloadField op.data "sessionId" ++ "/items" }
  | EntityType.defect =>
    { method := ApiMethod.post,
      path := "/sessions/items/" ++ payloadField op.data "itemId" ++ "/defects" }


/-- Concrete fixtures used to evaluate the development on closed inputs. -/
def okRemote : Remote := fun _ => ApiResult.ok true (some "S1")

def failRemote : Remote := fun _ => ApiResult.exn "network error"

def badRemote : Remote := fun _ => ApiResult.ok false none

def unresolvedUpdateOp : SyncOperation :=
  { id := 1, type := OpType.UPDATE, entityType := EntityType.session,
    localId := "L1", serverId := none, data := [("status", "CLOSED")],
    timestamp := 10, attempts := 0, lastError := none }

def unresolvedUpdateState : SyncState :=
  { db := { stores := { sessions := [("L1", { id := none, syncStatus := SyncStatus.pending })],
                        items := [], defects := [] },
            syncQueue := [unresolvedUpdateOp] },
    isSyncing := false, pendingCount := 1 }

def failingCreateOp : SyncOperation :=
  { id := 2, type := OpType.CREATE, entityType := EntityType.session,
    localId := "L2", serverId := none, data := [], timestamp := 5,
    attempts := 0, lastError := none }

def failingCreateState : SyncState :=
  { db := { stores := { sessions := [("L2", { id := none, syncStatus := SyncStatus.pending })],
                        items := [], defects := [] },
            syncQueue := [failingCreateOp] },
    isSyncing := false, pendingCount := 1 }

def sessionCreateOp : SyncOperation :=
  { id := 1, type := OpType.CREATE, entityType := EntityType.session,
    localId := "L1", serverId := none, data := [], timestamp := 1,
    attempts := 0, lastError := none }

def sessionUpdateOp : SyncOperation :=
  { id := 2, type := OpType.UPDATE, entityType := EntityType.session,
    localId := "L1", serverId := none, data := [("status", "CLOSED")],
    timestamp := 2, attempts := 0, lastError := none }

def createThenUpdateState : SyncState :=
  { db := { stores := { sessions := [("L1", { id := none, syncStatus := SyncStatus.pending })],
                        items := [], defects := [] },
            syncQueue := [sessionCreateOp, sessionUpdateOp] },
    isSyncing := false, pendingCount := 2 }

def resolvedUpdateOp : SyncOperation :=
  { id := 1, type := OpType.UPDATE, entityType := EntityType.session,
    localId := "L1", serverId := some "S9", data := [("status", "CLOSED")],
    timestamp := 10, attempts := 0, lastError := none }

def resolvedUpdateState : SyncState :=
  { db := { stores := { sessions := [("L1", { id := some "S9", syncStatus := SyncStatus.pending })],
                        items := [], defects := [] },
            syncQueue := [resolvedUpdateOp] },
    isSyncing := false, pendingCount := 1 }

def itemDeleteOp : SyncOperation :=
  { id := 3, type := OpType.DELETE, entityType := EntityType.item,
    localId := "L3", serverId := some "S3", data := [], timestamp := 7,
    attempts := 1, lastError := none }

def emptyStores : Stores := { sessions := [], items := [], defects := [] }

theorem getEntity_updateEntity (t : Table) (k k' : String) (f : Entity → Entity) :
    getEntity (updateEntity t k' f) k =
      if k = k' then (getEntity t k).map f else getEntity t k := by
  induction t with
  | nil =>
    simp only [updateEntity, List.map_nil, getEntity, List.find?_nil, Option.map_none']
    split <;> rfl
  | cons p rest ih =>
    by_cases h1 : p.1 = k' <;> by_cases h2 : p.1 = k <;>
      simp_all [updateEntity, getEntity, List.find?_cons] <;>
      split <;> simp_all

theorem processOperation_stores_of_throw (remote : Remote) (st : Stores)
    (op : SyncOperation) (m : String)
    (h : (processOperation remote st op).threw = some m) :
    (processOperation remote st op).stores = st := by
  rcases op with ⟨i, ty, et, lid, sid, d, ts, att, le⟩
  cases et <;> cases ty <;>
    simp only [processOperation, processSessionOperation, processItemOperation,
      processDefectOperation] at h ⊢ <;>
    (repeat' split at h) <;> simp_all

theorem processOperation_calls_length (remote : Remote) (st : Stores)
    (op : SyncOperation) : (processOperation remote st op).calls.length ≤ 1 := by
  rcases op with ⟨i, ty, et, lid, sid, d, ts, att, le⟩
  cases et <;> cases ty <;>
    simp only [processOperation, processSessionOperation, processItemOperation,
      processDefectOperation] <;>
    (repeat' split) <;> simp_all

theorem processOperation_update_delete_stores (remote : Remote) (st : Stores)
    (op : SyncOperation) (h : op.type = OpType.UPDATE ∨ op.type = OpType.DELETE) :
    (processOperation remote st op).stores = st := by
  rcases op with ⟨i, ty, et, lid, sid, d, ts, att, le⟩
  cases et <;> cases ty <;>
    simp_all only [processOperation, processSessionOperation, processItemOperation,
      processDefectOperation] <;>
    (repeat' split) <;> simp_all

theorem processOperation_unresolved (remote : Remote) (st : Stores)
    (op : SyncOperation) (h1 : op.type = OpType.UPDATE ∨ op.type = OpType.DELETE)
    (h2 : op.serverId = none) :
    processOperation remote st op = { stores := st, calls := [], threw := none } := by
  rcases op with ⟨i, ty, et, lid, sid, d, ts, att, le⟩
  dsimp only at h1 h2
  subst h2
  rcases h1 with h1 | h1 <;> subst h1 <;> cases et <;> rfl

theorem processOperation_unhandled (remote : Remote) (st : Stores)
    (op : SyncOperation)
    (h : (op.entityType = EntityType.item ∧ op.type = OpType.DELETE) ∨
         (op.entityType = EntityType.defect ∧ op.type = OpType.UPDATE)) :
    processOperation remote st op = { stores := st, calls := [], threw := none } := by
  rcases op with ⟨i, ty, et, lid, sid, d, ts, att, le⟩
  rcases h with ⟨h1, h2⟩ | ⟨h1, h2⟩ <;> dsimp only at h1 h2 <;>
    subst h1 <;> subst h2 <;> rfl


theorem processOperation_threw_of_succeeds (remote : Remote) (st : Stores)
    (op : SyncOperation) (hr : AlwaysSucceeds remote) :
    (processOperation remote st op).threw = none := by
  choose f hf using hr
  rcases op with ⟨i, ty, et, lid, sid, d, ts, att, le⟩
  cases et <;> cases ty <;>
    simp only [processOperation, processSessionOperation, processItemOperation,
      processDefectOperation] <;>
    (try cases sid) <;>
    simp only [hf] <;>
    (repeat' split) <;> simp_all

theorem processOperation_create_synced (remote : Remote) (st : Stores)
    (op : SyncOperation) (hr : AlwaysSucceeds remote)
    (hty : op.type = OpType.CREATE) (e : Entity)
    (hpres : getEntity (entityTable st op.entityType) op.localId = some e) :
    ∃ sid, getEntity (entityTable (processOperation remote st op).stores
        op.entityType) op.localId =
      some { id := some sid, syncStatus := SyncStatus.synced } := by
  choose f hf using hr
  rcases op with ⟨i, ty, et, lid, sid0, d, ts, att, le⟩
  dsimp only at hty
  subst hty
  cases et <;>
    simp_all only [processOperation, processSessionOperation, processItemOperation,
      processDefectOperation, entityTable] <;>
    simp [hf, hpres, getEntity_updateEntity]

theorem processOperation_frame (remote : Remote) (st : Stores)
    (op : SyncOperation) (et : EntityType) (k : String)
    (h : ¬(et = op.entityType ∧ k = op.localId)) :
    getEntity (entityTable (processOperation remote st op).stores et) k =
      getEntity (entityTable st et) k := by
  rcases op with ⟨i, ty, ety, lid, sid, d, ts, att, le⟩
  cases ety <;> cases ty <;> cases et <;>
    simp_all only [processOperation, processSessionOperation, processItemOperation,
      processDefectOperation, entityTable, not_and] <;>
    (repeat' split) <;> simp_all [getEntity_updateEntity]

theorem processOperation_presence (remote : Remote) (st : Stores)
    (op : SyncOperation) (et : EntityType) (k : String) :
    (getEntity (entityTable (processOperation remote st op).stores et) k).isSome =
      (getEntity (entityTable st et) k).isSome := by
  rcases op with ⟨i, ty, ety, lid, sid, d, ts, att, le⟩
  cases ety <;> cases ty <;> cases et <;>
    simp only [processOperation, processSessionOperation, processItemOperation,
      processDefectOperation, entityTable] <;>
    (repeat' split) <;> simp_all [getEntity_updateEntity] <;>
    (repeat' split) <;> simp_all

theorem drainStep_stores (remote : Remote) (db : DB) (op : SyncOperation) :
    (drainStep remote db op).1.stores = (processOperation remote db.stores op).stores := by
  simp only [drainStep]
  split <;> (try split) <;> rfl

theorem drainStep_trace (remote : Remote) (db : DB) (op : SyncOperation) :
    (drainStep remote db op).2 =
      (processOperation remote db.stores op).calls.map
        (fun c => { opId := op.id, ts := op.timestamp, call := c }) := by
  simp only [drainStep]
  split <;> (try split) <;> rfl

theorem drainStep_queue_of_no_throw (remote : Remote) (db : DB) (op : SyncOperation)
    (h : (processOperation remote db.stores op).threw = none) :
    (drainStep remote db op).1.syncQueue = db.syncQueue.filter (fun q => q.id ≠ op.id) := by
  simp only [drainStep, h]

theorem drainStep_trace_len (remote : Remote) (db : DB) (op : SyncOperation) :
    (drainStep remote db op).2.length ≤ 1 := by
  rw [drainStep_trace, List.length_map]
  exact processOperation_calls_length remote db.stores op

theorem drainStep_trace_mem (remote : Remote) (db : DB) (op : SyncOperation)
    (c : RCall) (hc : c ∈ (drainStep remote db op).2) :
    c.opId = op.id ∧ c.ts = op.timestamp := by
  rw [drainStep_trace] at hc
  obtain ⟨a, _, rfl⟩ := List.mem_map.mp hc
  exact ⟨rfl, rfl⟩

theorem drainOps_stores_trace_eq (remote : Remote) (ops : List SyncOperation) :
    ∀ db1 db2 : DB, db1.stores = db2.stores →
      (drainOps remote db1 ops).1.stores = (drainOps remote db2 ops).1.stores ∧
      (drainOps remote db1 ops).2 = (drainOps remote db2 ops).2 := by
  induction ops with
  | nil => intro db1 db2 h; simp [drainOps, h]
  | cons op rest ih =>
    intro db1 db2 h
    have hst : (drainStep remote db1 op).1.stores = (drainStep remote db2 op).1.stores := by
      rw [drainStep_stores, drainStep_stores, h]
    have htr : (drainStep remote db1 op).2 = (drainStep remote db2 op).2 := by
      rw [drainStep_trace, drainStep_trace, h]
    have hrest := ih (drainStep remote db1 op).1 (drainStep remote db2 op).1 hst
    simp only [drainOps]
    exact ⟨hrest.1, by rw [htr, hrest.2]⟩

theorem drainOps_queue_mem_succeeds (remote : Remote) (hr : AlwaysSucceeds remote) :
    ∀ (ops : List SyncOperation) (db : DB) (q : SyncOperation),
      q ∈ (drainOps remote db ops).1.syncQueue →
      q ∈ db.syncQueue ∧ ∀ o ∈ ops, q.id ≠ o.id := by
  intro ops
  induction ops with
  | nil =>
    intro db q hq
    simp only [drainOps] at hq
    exact ⟨hq, by simp⟩
  | cons op rest ih =>
    intro db q hq
    simp only [drainOps] at hq
    obtain ⟨h1, h2⟩ := ih (drainStep remote db op).1 q hq
    rw [drainStep_queue_of_no_throw remote db op
      (processOperation_threw_of_succeeds remote db.stores op hr)] at h1
    rw [List.mem_filter] at h1
    refine ⟨h1.1, ?_⟩
    intro o ho
    rcases List.mem_cons.mp ho with rfl | ho'
    · simpa using h1.2
    · exact h2 o ho'


theorem processOperation_preserves_synced (remote : Remote) (st : Stores)
    (op : SyncOperation) (et : EntityType) (k : String) (hr : AlwaysSucceeds remote)
    (h : SyncedAt st et k) : SyncedAt (processOperation remote st op).stores et k := by
  by_cases hc : et = op.entityType ∧ k = op.localId
  · obtain ⟨hc1, hc2⟩ := hc
    subst hc1
    subst hc2
    cases hty : op.type with
    | CREATE =>
      obtain ⟨sid, hs⟩ := h
      exact processOperation_create_synced remote st op hr hty _ hs
    | UPDATE =>
      rw [SyncedAt, processOperation_update_delete_stores remote st op (Or.inl hty)]
      exact h
    | DELETE =>
      rw [SyncedAt, processOperation_update_delete_stores remote st op (Or.inr hty)]
      exact h
  · obtain ⟨sid, hs⟩ := h
    exact ⟨sid, by rw [processOperation_frame remote st op et k hc, hs]⟩

theorem drainOps_preserves_synced (remote : Remote) (hr : AlwaysSucceeds remote) :
    ∀ (ops : List SyncOperation) (db : DB) (et : EntityType) (k : String),
      SyncedAt db.stores et k → SyncedAt (drainOps remote db ops).1.stores et k := by
  intro ops
  induction ops with
  | nil => intro db et k h; simpa [drainOps] using h
  | cons op rest ih =>
    intro db et k h
    simp only [drainOps]
    apply ih
    rw [drainStep_stores]
    exact processOperation_preserves_synced remote db.stores op et k hr h

theorem drainOps_create_synced (remote : Remote) (hr : AlwaysSucceeds remote) :
    ∀ (ops : List SyncOperation) (db : DB) (op : SyncOperation), op ∈ ops →
      op.type = OpType.CREATE →
      (getEntity (entityTable db.stores op.entityType) op.localId).isSome = true →
      SyncedAt (drainOps remote db ops).1.stores op.entityType op.localId := by
  intro ops
  induction ops with
  | nil => intro db op hmem; exact absurd hmem (by simp)
  | cons op0 rest ih =>
    intro db op hmem hty hpres
    rcases List.mem_cons.mp hmem with rfl | hmem'
    · have h1 : SyncedAt (drainStep remote db op).1.stores op.entityType op.localId := by
        rw [drainStep_stores]
        obtain ⟨e, he⟩ := Option.isSome_iff_exists.mp hpres
        exact processOperation_create_synced remote db.stores op hr hty e he
      simp only [drainOps]
      exact drainOps_preserves_synced remote hr rest _ _ _ h1
    · simp only [drainOps]
      refine ih (drainStep remote db op0).1 op hmem' hty ?_
      rw [drainStep_stores, processOperation_presence]
      exact hpres

theorem pairwise_of_length_le_one {α : Type} {R : α → α → Prop} :
    ∀ {l : List α}, l.length ≤ 1 → l.Pairwise R
  | [], _ => List.Pairwise.nil
  | [a], _ => by simp
  | a :: b :: t, h => by simp at h

theorem opLE_timestamp {a b : SyncOperation} (h : opLE a b) :
    a.timestamp ≤ b.timestamp := by
  unfold opLE at h
  omega

theorem drainOps_trace_src (remote : Remote) :
    ∀ (ops : List SyncOperation) (db : DB) (c : RCall),
      c ∈ (drainOps remote db ops).2 →
      ∃ op ∈ ops, c.opId = op.id ∧ c.ts = op.timestamp := by
  intro ops
  induction ops with
  | nil => intro db c hc; simp [drainOps] at hc
  | cons op rest ih =>
    intro db c hc
    simp only [drainOps, List.mem_append] at hc
    rcases hc with hc | hc
    · exact ⟨op, List.mem_cons_self op rest, drainStep_trace_mem remote db op c hc⟩
    · obtain ⟨op', hop', hp⟩ := ih (drainStep remote db op).1 c hc
      exact ⟨op', List.mem_cons_of_mem op hop', hp⟩

theorem drainOps_trace_ts_pairwise (remote : Remote) :
    ∀ (ops : List SyncOperation) (db : DB), ops.Pairwise opLE →
      ((drainOps remote db ops).2).Pairwise (fun a b => a.ts ≤ b.ts) := by
  intro ops
  induction ops with
  | nil => intro db _; simp [drainOps]
  | cons op rest ih =>
    intro db hp
    rw [List.pairwise_cons] at hp
    simp only [drainOps]
    rw [List.pairwise_append]
    refine ⟨pairwise_of_length_le_one (drainStep_trace_len remote db op), ih _ hp.2, ?_⟩
    intro a ha b hb
    obtain ⟨_, hats⟩ := drainStep_trace_mem remote db op a ha
    obtain ⟨op', hop', _, hbts⟩ := drainOps_trace_src remote rest _ b hb
    rw [hats, hbts]
    exact opLE_timestamp (hp.1 op' hop')

theorem drainOps_trace_opid_pairwise (remote : Remote) :
    ∀ (ops : List SyncOperation) (db : DB),
      (ops.map (fun o => o.id)).Nodup →
      ((drainOps remote db ops).2).Pairwise (fun a b => a.opId ≠ b.opId) := by
  intro ops
  induction ops with
  | nil => intro db _; simp [drainOps]
  | cons op rest ih =>
    intro db hn
    rw [List.map_cons, List.nodup_cons] at hn
    simp only [drainOps]
    rw [List.pairwise_append]
    refine ⟨pairwise_of_length_le_one (drainStep_trace_len remote db op), ih _ hn.2, ?_⟩
    intro a ha b hb
    obtain ⟨haid, _⟩ := drainStep_trace_mem remote db op a ha
    obtain ⟨op', hop', hbid, _⟩ := drainOps_trace_src remote rest _ b hb
    rw [haid, hbid]
    intro hcontra
    exact hn.1 (hcontra ▸ List.mem_map_of_mem (fun o => o.id) hop')

theorem filter_id_eq_of_nodup (l : List SyncOperation) (op : SyncOperation)
    (hnd : (l.map (fun q => q.id)).Nodup) (hmem : op ∈ l) :
    l.filter (fun q => q.id = op.id) = [op] := by
  induction l with
  | nil => simp at hmem
  | cons a rest ih =>
    rw [List.map_cons, List.nodup_cons] at hnd
    rcases List.mem_cons.mp hmem with rfl | hmem'
    · have hrest : rest.filter (fun q => q.id = op.id) = [] := by
        rw [List.filter_eq_nil_iff]
        intro q hq hcontra
        simp only [decide_eq_true_eq] at hcontra
        exact hnd.1 (hcontra ▸ List.mem_map_of_mem (fun q' => q'.id) hq)
      rw [List.filter_cons]
      simp [hrest]
    · have hane : a.id ≠ op.id :=
        fun hco => hnd.1 (hco ▸ List.mem_map_of_mem (fun q' => q'.id) hmem')
      rw [List.filter_cons]
      simp [hane, ih hnd.2 hmem']

theorem filter_map_id_preserving (l : List SyncOperation)
    (f : SyncOperation → SyncOperation) (hf : ∀ q, (f q).id = q.id) (p : Nat → Bool) :
    (l.map f).filter (fun q => p q.id) = (l.filter (fun q => p q.id)).map f := by
  induction l with
  | nil => rfl
  | cons a rest ih =>
    simp only [List.map_cons, List.filter_cons, hf]
    split <;> simp_all

theorem drainStep_queue_of_throw (remote : Remote) (db : DB) (op : SyncOperation)
    (m : String) (h : (processOperation remote db.stores op).threw = some m) :
    (drainStep remote db op).1.syncQueue =
      if 5 ≤ op.attempts then
        (db.syncQueue.map (fun q => if q.id = op.id then
          { q with attempts := op.attempts + 1, lastError := some m } else q)).filter
          (fun q => q.id ≠ op.id)
      else db.syncQueue.map (fun q => if q.id = op.id then
          { q with attempts := op.attempts + 1, lastError := some m } else q) := by
  simp only [drainStep, h]
  split <;> rfl


/-- Claim C1 (corrected).  The original claim says a queued UPDATE/DELETE with
no resolved server identifier is skipped and left in the queue with its attempt
count unchanged.  The handlers indeed make no remote call for such an
operation, but they return normally, so the drain loop's success path deletes
the operation from the queue.  This theorem states the amended claim: the pass
over such an operation submits nothing and removes the operation. -/
theorem c1_unresolved_op_not_submitted_but_removed (remote : Remote) (db : DB) (op : SyncOperation)
    (h1 : op.type = OpType.UPDATE ∨ op.type = OpType.DELETE)
    (h2 : op.serverId = none) :
    drainStep remote db op =
      ({ stores := db.stores,
         syncQueue := db.syncQueue.filter (fun q => q.id ≠ op.id) }, []) := by
  have hpo := processOperation_unresolved remote db.stores op h1 h2
  simp only [drainStep, hpo, List.map_nil]

/-- Claim C1 counterexample: a single queued UPDATE of a session whose server
identifier is unknown.  One drain pass makes no remote call, yet the queue is
empty afterwards — the operation was not retained as the claim requires. -/
theorem c1_counterexample :
    (processQueue okRemote unresolvedUpdateState).2 = [] ∧
    (processQueue okRemote unresolvedUpdateState).1.db.syncQueue = [] := by decide

/-- Claim C1 witness: the amended theorem evaluated on the concrete unresolved
UPDATE fixture. -/
theorem c1_witness :
    (unresolvedUpdateOp.type = OpType.UPDATE ∨ unresolvedUpdateOp.type = OpType.DELETE) ∧
    unresolvedUpdateOp.serverId = none ∧
    drainStep okRemote unresolvedUpdateState.db unresolvedUpdateOp =
      ({ stores := unresolvedUpdateState.db.stores,
         syncQueue := unresolvedUpdateState.db.syncQueue.filter
           (fun q => q.id ≠ unresolvedUpdateOp.id) }, []) :=
  ⟨Or.inl rfl, rfl,
    c1_unresolved_op_not_submitted_but_removed okRemote unresolvedUpdateState.db unresolvedUpdateOp (Or.inl rfl) rfl⟩

/-- Claim C2 (corrected).  The original claim says an operation is removed
exactly when its attempt count reaches 5.  The loop writes back
`attempts := op.attempts + 1` and the error string, but the removal guard
tests the snapshot's pre-increment count (`op.attempts >= 5`), so removal
happens exactly when the count before the failure was already at least 5 —
i.e. on the sixth consecutive failure, when the stored count reaches 6. -/
theorem c2_failed_attempt_bookkeeping (remote : Remote) (db : DB) (op : SyncOperation) (m : String)
    (hq : op ∈ db.syncQueue)
    (hnd : (db.syncQueue.map (fun q => q.id)).Nodup)
    (h : (processOperation remote db.stores op).threw = some m) :
    (drainStep remote db op).1.syncQueue.filter (fun q => q.id = op.id) =
      if 5 ≤ op.attempts then []
      else [{ op with attempts := op.attempts + 1, lastError := some m }] := by
  rw [drainStep_queue_of_throw remote db op m h]
  split
  · rw [List.filter_eq_nil_iff]
    intro q hq' hcontra
    rw [List.mem_filter] at hq'
    simp only [decide_eq_true_eq] at hcontra
    have := hq'.2
    simp only [ne_eq, decide_not, Bool.not_eq_eq_eq_not, Bool.not_true,
      decide_eq_false_iff_not] at this
    exact this hcontra
  · rw [filter_map_id_preserving db.syncQueue _ (fun q => by split <;> rfl) (fun n => decide (n = op.id))]
    rw [filter_id_eq_of_nodup db.syncQueue op hnd hq]
    simp

/-- Claim C2 counterexample: five consecutive drain cycles over a single
always-failing CREATE leave the operation still queued with attempt count 5,
contradicting the claim that five failures remove it. -/
theorem c2_counterexample :
    (drainN failRemote 5 failingCreateState).db.syncQueue =
      [{ failingCreateOp with attempts := 5, lastError := some "network error" }] := by
  decide

/-- Claim C2 witness: the amended bookkeeping theorem evaluated on the
concrete failing CREATE fixture. -/
theorem c2_witness :
    failingCreateOp ∈ failingCreateState.db.syncQueue ∧
    (failingCreateState.db.syncQueue.map (fun q => q.id)).Nodup ∧
    (processOperation failRemote failingCreateState.db.stores failingCreateOp).threw =
      some "network error" ∧
    (drainStep failRemote failingCreateState.db failingCreateOp).1.syncQueue.filter
        (fun q => q.id = failingCreateOp.id) =
      (if 5 ≤ failingCreateOp.attempts then []
       else [{ failingCreateOp with
                 attempts := failingCreateOp.attempts + 1
                 lastError := some "network error" }]) :=
  ⟨by decide, by decide, by decide,
    c2_failed_attempt_bookkeeping failRemote failingCreateState.db failingCreateOp "network error"
      (by decide) (by decide) (by decide)⟩

/-- Claim C3 (corrected).  The original claim says the server identifier for an
UPDATE/DELETE is looked up at replay time from the current local-to-server
mapping.  In the code the handlers read only `op.serverId`, the value captured
at enqueue time: the calls made for an UPDATE/DELETE are independent of the
entity tables (the mapping) and are fully determined by the operation record,
with no call at all when the identifier was absent at enqueue. -/
theorem c3_replay_uses_enqueue_time_server_id (remote : Remote) (st st' : Stores) (op : SyncOperation)
    (h : op.type = OpType.UPDATE ∨ op.type = OpType.DELETE) :
    (processOperation remote st op).calls = (processOperation remote st' op).calls ∧
    (processOperation remote st op).calls =
      (match op.serverId, op.entityType, op.type with
       | none, _, _ => []
       | some sid, EntityType.session, OpType.UPDATE =>
           [{ method := ApiMethod.patch, path := "/sessions/" ++ sid }]
       | some sid, EntityType.session, OpType.DELETE =>
           [{ method := ApiMethod.del, path := "/sessions/" ++ sid }]
       | some sid, EntityType.item, OpType.UPDATE =>
           [{ method := ApiMethod.patch, path := "/sessions/items/" ++ sid }]
       | some sid, EntityType.defect, OpType.DELETE =>
           [{ method := ApiMethod.del, path := "/sessions/defects/" ++ sid }]
       | some _, _, _ => []) := by
  rcases op with ⟨i, ty, et, lid, sid, d, ts, att, le⟩
  dsimp only at h
  rcases h with h | h <;> subst h <;> cases et <;> cases sid <;>
    constructor <;>
    simp only [processOperation, processSessionOperation, processItemOperation,
      processDefectOperation] <;>
    (repeat' split) <;> rfl

/-- Claim C3 counterexample: a CREATE followed by an UPDATE of the same entity,
with an always-succeeding remote.  After the drain the local mapping holds the
server id "S1" (resolved before the UPDATE was replayed), yet the trace shows
no PATCH to the update endpoint: the UPDATE used its enqueue-time (absent)
server id, not a replay-time lookup. -/
theorem c3_counterexample :
    getEntity (processQueue okRemote createThenUpdateState).1.db.stores.sessions "L1" =
      some { id := some "S1", syncStatus := SyncStatus.synced } ∧
    (processQueue okRemote createThenUpdateState).2 =
      [{ opId := 1, ts := 1,
         call := { method := ApiMethod.post, path := "/sessions" } }] := by decide

/-- Claim C3 witness: the amended theorem evaluated at two different stores
(empty, and one with the binding present). -/
theorem c3_witness :
    (unresolvedUpdateOp.type = OpType.UPDATE ∨ unresolvedUpdateOp.type = OpType.DELETE) ∧
    ((processOperation okRemote emptyStores unresolvedUpdateOp).calls =
      (processOperation okRemote unresolvedUpdateState.db.stores unresolvedUpdateOp).calls ∧
     (processOperation okRemote emptyStores unresolvedUpdateOp).calls =
      (match unresolvedUpdateOp.serverId, unresolvedUpdateOp.entityType,
             unresolvedUpdateOp.type with
       | none, _, _ => []
       | some sid, EntityType.session, OpType.UPDATE =>
           [{ method := ApiMethod.patch, path := "/sessions/" ++ sid }]
       | some sid, EntityType.session, OpType.DELETE =>
           [{ method := ApiMethod.del, path := "/sessions/" ++ sid }]
       | some sid, EntityType.item, OpType.UPDATE =>
           [{ method := ApiMethod.patch, path := "/sessions/items/" ++ sid }]
       | some sid, EntityType.defect, OpType.DELETE =>
           [{ method := ApiMethod.del, path := "/sessions/defects/" ++ sid }]
       | some _, _, _ => [])) :=
  ⟨Or.inl rfl,
    c3_replay_uses_enqueue_time_server_id okRemote emptyStores unresolvedUpdateState.db.stores unresolvedUpdateOp
      (Or.inl rfl)⟩

/-- Claim C4 (corrected).  The original claim says a failed attempt sets the
local entity's sync status to error.  The failure path of the drain loop only
updates the queue entry; no code path ever writes the error status.  The
amended claim: a failing replay leaves every entity table exactly unchanged
(so also no rollback and no spurious synced marking when the ceiling drop
happens). -/
theorem c4_failure_leaves_entities_untouched (remote : Remote) (db : DB) (op : SyncOperation) (m : String)
    (h : (processOperation remote db.stores op).threw = some m) :
    (drainStep remote db op).1.stores = db.stores := by
  rw [drainStep_stores]
  exact processOperation_stores_of_throw remote db.stores op m h

/-- Claim C4 counterexample: a failing CREATE leaves its session entity with
sync status pending — it is not set to error as the claim requires. -/
theorem c4_counterexample :
    getEntity (processQueue failRemote failingCreateState).1.db.stores.sessions "L2" =
      some { id := none, syncStatus := SyncStatus.pending } := by decide

/-- Claim C4 witness: the amended theorem evaluated on the concrete failing
CREATE fixture. -/
theorem c4_witness :
    (processOperation failRemote failingCreateState.db.stores failingCreateOp).threw =
      some "network error" ∧
    (drainStep failRemote failingCreateState.db failingCreateOp).1.stores =
      failingCreateState.db.stores :=
  ⟨by decide,
    c4_failure_leaves_entities_untouched failRemote failingCreateState.db failingCreateOp "network error" (by decide)⟩

/-- Claim C5 (corrected).  With an always-succeeding remote a drain empties the
queue, and every entity present in the store whose CREATE operation was queued
ends synced and carries a server-assigned identifier.  The original claim said
this for every entity with any operation enqueued; that part fails because a
successful UPDATE or DELETE never touches the entity's sync status (see the
counterexample), so the amended claim restricts the synced guarantee to
entities with a queued CREATE. -/
theorem c5_success_drains_queue_and_syncs_creates (remote : Remote) (s : SyncState) (op : SyncOperation)
    (hr : AlwaysSucceeds remote) (hs : s.isSyncing = false)
    (hop : op ∈ s.db.syncQueue) (hty : op.type = OpType.CREATE)
    (hpres : (getEntity (entityTable s.db.stores op.entityType) op.localId).isSome = true) :
    (processQueue remote s).1.db.syncQueue = [] ∧
    ∃ sid, getEntity (entityTable (processQueue remote s).1.db.stores op.entityType)
        op.localId = some { id := some sid, syncStatus := SyncStatus.synced } := by
  constructor
  · rw [List.eq_nil_iff_forall_not_mem]
    intro q hq
    simp only [processQueue, hs, Bool.false_eq_true, if_false] at hq
    obtain ⟨h1, h2⟩ := drainOps_queue_mem_succeeds remote hr _ s.db q hq
    exact h2 q ((List.mem_insertionSort opLE).mpr h1) rfl
  · simp only [processQueue, hs, Bool.false_eq_true, if_false]
    exact drainOps_create_synced remote hr _ s.db op
      ((List.mem_insertionSort opLE).mpr hop) hty hpres

/-- Claim C5 counterexample: a single queued UPDATE with a resolved server id
and an always-succeeding remote.  The drain empties the queue, but the entity
stays pending — it does not end synced as the original claim requires. -/
theorem c5_counterexample :
    (processQueue okRemote resolvedUpdateState).1.db.syncQueue = [] ∧
    getEntity (processQueue okRemote resolvedUpdateState).1.db.stores.sessions "L1" =
      some { id := some "S9", syncStatus := SyncStatus.pending } := by decide

/-- Claim C5 witness: the amended theorem evaluated on the CREATE-then-UPDATE
fixture with the always-succeeding remote. -/
theorem c5_witness :
    AlwaysSucceeds okRemote ∧
    createThenUpdateState.isSyncing = false ∧
    sessionCreateOp ∈ createThenUpdateState.db.syncQueue ∧
    sessionCreateOp.type = OpType.CREATE ∧
    (getEntity (entityTable createThenUpdateState.db.stores sessionCreateOp.entityType)
      sessionCreateOp.localId).isSome = true ∧
    ((processQueue okRemote createThenUpdateState).1.db.syncQueue = [] ∧
     ∃ sid, getEntity (entityTable (processQueue okRemote createThenUpdateState).1.db.stores
         sessionCreateOp.entityType) sessionCreateOp.localId =
       some { id := some sid, syncStatus := SyncStatus.synced }) :=
  ⟨fun _ => ⟨"S1", rfl⟩, rfl, by decide, rfl, by decide,
    c5_success_drains_queue_and_syncs_creates okRemote createThenUpdateState sessionCreateOp
      (fun _ => ⟨"S1", rfl⟩) rfl (by decide) rfl (by decide)⟩

/-- Claim C6 (confirmed).  The embedding replays the snapshot strictly
sequentially (drainOps is a fold emitting at most one remote call per
operation), and because the snapshot is read sorted by timestamp, the trace of
remote calls of one drain cycle is in non-decreasing timestamp order. -/
theorem c6_drain_trace_timestamp_ordered (remote : Remote) (s : SyncState) :
    ((processQueue remote s).2).Pairwise (fun a b => a.ts ≤ b.ts) := by
  by_cases h : s.isSyncing = true
  · simp [processQueue, h]
  · simp only [Bool.not_eq_true] at h
    simp only [processQueue, h, Bool.false_eq_true, if_false]
    exact drainOps_trace_ts_pairwise remote _ s.db
      (List.sorted_insertionSort opLE s.db.syncQueue)

/-- Claim C7 (confirmed).  A call to processQueue while the isSyncing flag is
set is a no-op: it changes nothing and submits nothing.  And one drain over a
queue with distinct primary keys submits each operation at most once (the
trace never repeats an operation id).  Together: across a drain and a
re-entrant call, no queued operation is submitted more than once. -/
theorem c7_reentrant_drain_noop_no_duplicate (remote : Remote) (s : SyncState)
    (h : (s.db.syncQueue.map (fun q => q.id)).Nodup) :
    processQueue remote { s with isSyncing := true } =
      ({ s with isSyncing := true }, []) ∧
    ((processQueue remote s).2).Pairwise (fun a b => a.opId ≠ b.opId) := by
  constructor
  · simp [processQueue]
  · by_cases hsy : s.isSyncing = true
    · simp [processQueue, hsy]
    · simp only [Bool.not_eq_true] at hsy
      simp only [processQueue, hsy, Bool.false_eq_true, if_false]
      apply drainOps_trace_opid_pairwise
      have hperm := List.perm_insertionSort opLE s.db.syncQueue
      exact ((hperm.map (fun q => q.id)).nodup_iff).mpr h

/-- Claim C7 witness: the theorem evaluated on the two-operation fixture
state. -/
theorem c7_witness :
    (createThenUpdateState.db.syncQueue.map (fun q => q.id)).Nodup ∧
    (processQueue okRemote { createThenUpdateState with isSyncing := true } =
      ({ createThenUpdateState with isSyncing := true }, []) ∧
     ((processQueue okRemote createThenUpdateState).2).Pairwise
       (fun a b => a.opId ≠ b.opId)) :=
  ⟨by decide, c7_reentrant_drain_noop_no_duplicate okRemote createThenUpdateState (by decide)⟩

/-- Claim C8 (confirmed).  A failing operation's bookkeeping leaves all entity
tables unchanged and touches only its own queue entry (every other entry is
preserved verbatim, in both directions), and the remaining snapshot is
processed exactly as it would have been had the failure left the database
untouched: the remote calls made for the rest of the snapshot are identical.
-/
theorem c8_no_fail_fast_and_frame (remote : Remote) (db : DB) (op : SyncOperation)
    (rest : List SyncOperation) (m : String)
    (h : (processOperation remote db.stores op).threw = some m) :
    (drainStep remote db op).1.stores = db.stores ∧
    (∀ q ∈ db.syncQueue, q.id ≠ op.id → q ∈ (drainStep remote db op).1.syncQueue) ∧
    (∀ q ∈ (drainStep remote db op).1.syncQueue, q.id ≠ op.id → q ∈ db.syncQueue) ∧
    (drainOps remote (drainStep remote db op).1 rest).2 = (drainOps remote db rest).2 := by
  have hst : (drainStep remote db op).1.stores = db.stores := by
    rw [drainStep_stores]
    exact processOperation_stores_of_throw remote db.stores op m h
  refine ⟨hst, ?_, ?_, (drainOps_stores_trace_eq remote rest _ db hst).2⟩
  · intro q hq hne
    rw [drainStep_queue_of_throw remote db op m h]
    have hmm : q ∈ db.syncQueue.map (fun q' => if q'.id = op.id then
        { q' with attempts := op.attempts + 1, lastError := some m } else q') := by
      have hx := List.mem_map_of_mem (fun q' => if q'.id = op.id then
        { q' with attempts := op.attempts + 1, lastError := some m } else q') hq
      simpa [if_neg hne] using hx
    split
    · exact List.mem_filter.mpr ⟨hmm, by simpa using hne⟩
    · exact hmm
  · intro q hq hne
    rw [drainStep_queue_of_throw remote db op m h] at hq
    have hmm : q ∈ db.syncQueue.map (fun q' => if q'.id = op.id then
        { q' with attempts := op.attempts + 1, lastError := some m } else q') := by
      split at hq
      · exact (List.mem_filter.mp hq).1
      · exact hq
    obtain ⟨q0, hq0, hq0e⟩ := List.mem_map.mp hmm
    by_cases hid : q0.id = op.id
    · exfalso
      apply hne
      rw [← hq0e]
      simp [hid]
    · rw [← hq0e, if_neg hid]
      exact hq0

/-- Claim C8 witness: the theorem evaluated on the failing CREATE fixture with
a one-operation remainder. -/
theorem c8_witness :
    (processOperation failRemote failingCreateState.db.stores failingCreateOp).threw =
      some "network error" ∧
    ((drainStep failRemote failingCreateState.db failingCreateOp).1.stores =
      failingCreateState.db.stores ∧
     (∀ q ∈ failingCreateState.db.syncQueue, q.id ≠ failingCreateOp.id →
       q ∈ (drainStep failRemote failingCreateState.db failingCreateOp).1.syncQueue) ∧
     (∀ q ∈ (drainStep failRemote failingCreateState.db failingCreateOp).1.syncQueue,
       q.id ≠ failingCreateOp.id → q ∈ failingCreateState.db.syncQueue) ∧
     (drainOps failRemote (drainStep failRemote failingCreateState.db failingCreateOp).1
        [resolvedUpdateOp]).2 =
       (drainOps failRemote failingCreateState.db [resolvedUpdateOp]).2) :=
  ⟨by decide,
    c8_no_fail_fast_and_frame failRemote failingCreateState.db failingCreateOp [resolvedUpdateOp]
      "network error" (by decide)⟩

/-- Claim C9 (confirmed).  An operation whose (entity kind, operation kind)
pair has no handler case — DELETE of an item or UPDATE of a defect — performs
no remote call, and the drain loop's success path removes it from the queue as
if it had succeeded. -/
theorem c9_unhandled_combo_noop_removed (remote : Remote) (db : DB) (op : SyncOperation)
    (h : (op.entityType = EntityType.item ∧ op.type = OpType.DELETE) ∨
         (op.entityType = EntityType.defect ∧ op.type = OpType.UPDATE)) :
    drainStep remote db op =
      ({ stores := db.stores,
         syncQueue := db.syncQueue.filter (fun q => q.id ≠ op.id) }, []) := by
  have hpo := processOperation_unhandled remote db.stores op h
  simp only [drainStep, hpo, List.map_nil]

/-- Claim C9 witness: the theorem evaluated on a concrete item DELETE. -/
theorem c9_witness :
    ((itemDeleteOp.entityType = EntityType.item ∧ itemDeleteOp.type = OpType.DELETE) ∨
     (itemDeleteOp.entityType = EntityType.defect ∧ itemDeleteOp.type = OpType.UPDATE)) ∧
    drainStep okRemote failingCreateState.db itemDeleteOp =
      ({ stores := failingCreateState.db.stores,
         syncQueue := failingCreateState.db.syncQueue.filter
           (fun q => q.id ≠ itemDeleteOp.id) }, []) :=
  ⟨Or.inl ⟨rfl, rfl⟩,
    c9_unhandled_combo_noop_removed okRemote failingCreateState.db itemDeleteOp (Or.inl ⟨rfl, rfl⟩)⟩

/-- Claim C10 (confirmed).  A CREATE whose remote call returns normally with
success false or no data, or whose local entity is absent from its store,
still removes the operation from the queue after making exactly the one
creation call; no server identifier is bound and no entity is marked synced
(the entity tables are unchanged). -/
theorem c10_unsuccessful_create_removed_unbound (remote : Remote) (db : DB) (op : SyncOperation)
    (b : Bool) (d : Option String) (hty : op.type = OpType.CREATE)
    (hresp : remote (createCall op) = ApiResult.ok b d)
    (h : b = false ∨ d = none ∨
      getEntity (entityTable db.stores op.entityType) op.localId = none) :
    drainStep remote db op =
      ({ stores := db.stores,
         syncQueue := db.syncQueue.filter (fun q => q.id ≠ op.id) },
       [{ opId := op.id, ts := op.timestamp, call := createCall op }]) := by
  have hpo : processOperation remote db.stores op =
      { stores := db.stores, calls := [createCall op], threw := none } := by
    rcases op with ⟨i, ty, et, lid, sid, d0, ts, att, le⟩
    dsimp only at hty
    subst hty
    cases et <;>
      simp only [createCall] at hresp h ⊢ <;>
      simp only [processOperation, processSessionOperation, processItemOperation,
        processDefectOperation, entityTable] at h ⊢ <;>
      rw [hresp] <;>
      dsimp only <;>
      (rcases h with rfl | rfl | hnone
       · simp
       · simp
       · split
         · simp [hnone]
         · rfl)
  simp only [drainStep, hpo, List.map_cons, List.map_nil]

/-- Claim C10 witness: the theorem evaluated on a CREATE against a remote that
answers with success = false. -/
theorem c10_witness :
    failingCreateOp.type = OpType.CREATE ∧
    badRemote (createCall failingCreateOp) = ApiResult.ok false none ∧
    (false = false ∨ (none : Option String) = none ∨
      getEntity (entityTable failingCreateState.db.stores failingCreateOp.entityType)
        failingCreateOp.localId = none) ∧
    drainStep badRemote failingCreateState.db failingCreateOp =
      ({ stores := failingCreateState.db.stores,
         syncQueue := failingCreateState.db.syncQueue.filter
           (fun q => q.id ≠ failingCreateOp.id) },
       [{ opId := failingCreateOp.id, ts := failingCreateOp.timestamp,
          call := createCall failingCreateOp }]) :=
  ⟨rfl, rfl, Or.inl rfl,
    c10_unsuccessful_create_removed_unbound badRemote failingCreateState.db failingCreateOp false none rfl rfl
      (Or.inl rfl)⟩
